import Mathlib

/-!
Shallow embedding of the sentiment-analysis core of the
`social-media-osint` repository: the two analyzer variants
(`src/analyzers/sentiment_analyzer.py` and
`src/analyzers/enhanced_sentiment_analyzer.py`) together with the
top-posts selection code of `src/app.py`.

Python floats are embedded as `ℚ`; the external scoring models (VADER
and TextBlob) are external collaborators and are passed in as abstract
functions `String → …`.  Python's `round(x, n)` and the `:.3f` format
both round half-to-even; `rhe` below embeds that rounding mode exactly
on rationals.  Python dictionaries (posts) are embedded as association
lists `List (String × Val)` with first-match lookup.
-/

namespace OSINT

/-- A score record returned by the VADER model (`polarity_scores`). -/
structure VaderScores where
  compound : ℚ
  pos : ℚ
  neg : ℚ
  neu : ℚ
deriving DecidableEq, Repr

/-- A score record returned by the TextBlob model (`blob.sentiment`). -/
structure BlobScores where
  polarity : ℚ
  subjectivity : ℚ
deriving DecidableEq, Repr

/-- Round half to even to the nearest integer, the tie-breaking rule of
Python's `round` builtin, embedded on exact rationals. -/
def rhe (q : ℚ) : ℤ :=
  let f := ⌊q⌋
  if q - f < 1/2 then f
  else if 1/2 < q - f then f + 1
  else if f % 2 = 0 then f else f + 1

/-- Python `round(q, n)`: round half to even at `n` decimal places. -/
def roundTo (n : ℕ) (q : ℚ) : ℚ := (rhe (q * 10 ^ n) : ℚ) / 10 ^ n

/-- Python `round(q, 3)`, used for every score field in both analyzers. -/
def round3 (q : ℚ) : ℚ := roundTo 3 q

/-- Python `round(q, 2)`, used for the percentage fields. -/
def round2 (q : ℚ) : ℚ := roundTo 2 q

/-- Zero-pad a fractional part to three digits. -/
def pad3 (d : ℕ) : String :=
  (if d < 10 then "00" else if d < 100 then "0" else "") ++ toString d

/-- Python `f"{q:.3f}"`: fixed-point formatting with three decimals
(half-to-even rounding). -/
def fmt3 (q : ℚ) : String :=
  let n := rhe (q * 1000)
  let a := n.natAbs
  (if n < 0 then "-" else "") ++ toString (a / 1000) ++ "." ++ pad3 (a % 1000)

/-- An ASCII whitespace character as stripped by Python's `str.strip`. -/
def isPyWhitespace (c : Char) : Bool :=
  c == ' ' || c == '\t' || c == '\n' || c == '\r' || c == '\x0c' || c == '\x0b'

/-- Python `s.strip()`: drop whitespace from both ends. -/
def strip (s : String) : String :=
  String.mk (((s.toList.dropWhile isPyWhitespace).reverse.dropWhile
    isPyWhitespace).reverse)

/-- Python truthiness test `not text or not text.strip()` on an optional
text (`None` embedded as `none`). -/
def is_blank : Option String → Bool
  | none => true
  | some s => s == "" || strip s == ""

/-- A word character for the `\b\w+\b` token pattern. -/
def isWordChar (c : Char) : Bool := c.isAlphanum || c == '_'

end OSINT

namespace OSINT.Enhanced

/-- Lexicon `strong_positive` of `EnhancedSentimentAnalyzer.__init__`. -/
def strong_positive : List String :=
  ["love", "amazing", "excellent", "fantastic", "wonderful", "brilliant",
   "awesome", "great", "perfect", "outstanding", "superb", "incredible",
   "magnificent", "spectacular", "phenomenal", "exceptional", "fabulous"]

/-- Lexicon `strong_negative` of `EnhancedSentimentAnalyzer.__init__`. -/
def strong_negative : List String :=
  ["hate", "terrible", "awful", "horrible", "worst", "disgusting",
   "pathetic", "useless", "garbage", "trash", "disappointing",
   "disaster", "nightmare", "dreadful", "appalling", "atrocious"]

/-- Lexicon `positive_words` (the moderate positive tier). -/
def positive_words : List String :=
  ["good", "nice", "fine", "ok", "decent", "solid", "happy", "pleased",
   "satisfied", "enjoyable", "fun", "interesting", "cool", "helpful",
   "useful", "effective", "efficient", "reliable", "quality"]

/-- Lexicon `negative_words` (the moderate negative tier). -/
def negative_words : List String :=
  ["bad", "poor", "weak", "disappointing", "frustrating", "annoying",
   "sad", "unhappy", "difficult", "hard", "confusing", "complicated",
   "slow", "expensive", "broken", "buggy", "error", "issue", "problem"]

/-- Lexicon `negations` (apostrophes written as `\x27`). -/
def negations : List String :=
  ["not", "no", "never", "nothing", "neither", "nobody", "nowhere",
   "none", "don\x27t", "doesn\x27t", "didn\x27t", "won\x27t",
   "wouldn\x27t", "shouldn\x27t", "can\x27t", "cannot", "couldn\x27t"]

/-- Lexicon `intensifiers`. -/
def intensifiers : List String :=
  ["very", "extremely", "incredibly", "absolutely", "completely",
   "totally", "really", "quite", "fairly", "pretty", "highly",
   "exceptionally", "remarkably", "extraordinarily"]

/-- `_tokenize`: lowercase and extract maximal runs of word characters
(the `re.findall` of a word-boundary pattern is embedded as splitting on
non-word characters and dropping empty segments). -/
def tokenize (text : String) : List String :=
  ((text.toLower).split (fun c => !OSINT.isWordChar c)).filter (· ≠ "")

/-- `_split_sentences`: split on `.`, `!`, `?` runs, strip whitespace,
drop empty fragments (splitting on each delimiter individually and
dropping the empty pieces yields the same non-empty fragments as
splitting on runs). -/
def split_sentences (text : String) : List String :=
  ((text.split (fun c => c == '.' || c == '!' || c == '?')).map
    OSINT.strip).filter (· ≠ "")

/-- `_find_sentiment_words` (lines 164-181): scan tokens in order, strong
tier first, moderate tier otherwise. -/
def find_sentiment_words (words : List String) (sentiment_type : String) :
    List (String × String) :=
  if sentiment_type = "positive" then
    words.filterMap (fun word =>
      if word ∈ strong_positive then some (word, "strong")
      else if word ∈ positive_words then some (word, "moderate")
      else none)
  else
    words.filterMap (fun word =>
      if word ∈ strong_negative then some (word, "strong")
      else if word ∈ negative_words then some (word, "moderate")
      else none)

/-- `_find_negations`. -/
def find_negations (words : List String) : List String :=
  words.filter (· ∈ negations)

/-- `_find_intensifiers`. -/
def find_intensifiers (words : List String) : List String :=
  words.filter (· ∈ intensifiers)

/-- The compound-score classification thresholds (lines 104-112 and
again lines 201-206): `>= 0.05` positive, `<= -0.05` negative, the open
band between them neutral. -/
def vader_classify (compound : ℚ) : String :=
  if 0.05 ≤ compound then "positive"
  else if compound ≤ -0.05 then "negative"
  else "neutral"

/-- One entry of `sentence_breakdown`. -/
structure SentenceEntry where
  text : String
  sentiment : String
  score : ℚ
deriving DecidableEq, Repr

/-- `_analyze_sentences` (lines 191-214): loop over the first five
sentences, skip falsy (empty) ones, truncate the displayed text to 100
characters plus an ellipsis, classify and score from the full sentence. -/
def analyze_sentences (vader : String → VaderScores) (sentences : List String) :
    List SentenceEntry :=
  (sentences.take 5).filterMap (fun sentence =>
    if sentence = "" then none
    else
      some { text := if 100 < sentence.length
                     then sentence.take 100 ++ "..."
                     else sentence,
             sentiment := vader_classify (vader sentence).compound,
             score := round3 (vader sentence).compound })

/-- The sentence-majority clause of `_generate_explanation`
(lines 277-289): only when more than one sentence was analyzed, compare
the positive and negative sentence counts and emit the clause for the
larger one; emit nothing on a tie. -/
def sentence_clause (sentence_sentiments : List SentenceEntry) : List String :=
  if 1 < sentence_sentiments.length then
    let pos_sentences := sentence_sentiments.countP (fun s => s.sentiment == "positive")
    let neg_sentences := sentence_sentiments.countP (fun s => s.sentiment == "negative")
    if neg_sentences < pos_sentences then
      ["Most sentences (" ++ toString pos_sentences ++ "/" ++
       toString sentence_sentiments.length ++ ") are positive."]
    else if pos_sentences < neg_sentences then
      ["Most sentences (" ++ toString neg_sentences ++ "/" ++
       toString sentence_sentiments.length ++ ") are negative."]
    else []
  else []

/-- Python's `', '.join(set(ws))` iterates a hash set in unspecified
order; the spec leaves the order open, and it is embedded here as
first-occurrence deduplication. -/
def join_set (ws : List String) : String :=
  String.intercalate ", " ws.eraseDups

/-- `_generate_explanation` (lines 216-291). -/
def generate_explanation (sentiment : String) (compound : ℚ)
    (positive_indicators negative_indicators : List (String × String))
    (negations_found intensifiers_found : List String)
    (sentence_sentiments : List SentenceEntry) : String :=
  let part1 :=
    if sentiment = "positive" then
      "This text is **POSITIVE** (score: " ++ fmt3 compound ++ ")."
    else if sentiment = "negative" then
      "This text is **NEGATIVE** (score: " ++ fmt3 compound ++ ")."
    else
      "This text is **NEUTRAL** (score: " ++ fmt3 compound ++ ")."
  let pos_parts :=
    if positive_indicators.isEmpty then []
    else
      let strong_pos := (positive_indicators.filter (fun ws => ws.2 == "strong")).map (·.1)
      let moderate_pos := (positive_indicators.filter (fun ws => ws.2 == "moderate")).map (·.1)
      (if strong_pos.isEmpty then []
       else ["Strong positive words found: " ++ join_set strong_pos ++ "."]) ++
      (if moderate_pos.isEmpty then []
       else ["Positive words: " ++ join_set moderate_pos ++ "."])
  let neg_parts :=
    if negative_indicators.isEmpty then []
    else
      let strong_neg := (negative_indicators.filter (fun ws => ws.2 == "strong")).map (·.1)
      let moderate_neg := (negative_indicators.filter (fun ws => ws.2 == "moderate")).map (·.1)
      (if strong_neg.isEmpty then []
       else ["Strong negative words found: " ++ join_set strong_neg ++ "."]) ++
      (if moderate_neg.isEmpty then []
       else ["Negative words: " ++ join_set moderate_neg ++ "."])
  let negation_parts :=
    if negations_found.isEmpty then []
    else ["Negations detected (" ++ join_set negations_found ++
          ") which may flip sentiment."]
  let intensifier_parts :=
    if intensifiers_found.isEmpty then []
    else ["Intensifiers found (" ++ join_set intensifiers_found ++
          ") which amplify sentiment."]
  String.intercalate " "
    ([part1] ++ pos_parts ++ neg_parts ++ negation_parts ++ intensifier_parts ++
     sentence_clause sentence_sentiments)

/-- `_generate_reasoning` (lines 293-329). -/
def generate_reasoning (sentiment : String)
    (positive_indicators negative_indicators : List (String × String))
    (negations_found intensifiers_found : List String) : List String :=
  (if sentiment = "positive" then
    (if positive_indicators.isEmpty then []
     else ["Contains " ++ toString positive_indicators.length ++ " positive indicators"]) ++
    (if intensifiers_found.isEmpty then []
     else ["Uses " ++ toString intensifiers_found.length ++ " intensifiers to strengthen tone"]) ++
    (if negative_indicators.isEmpty then ["No significant negative language detected"] else [])
   else if sentiment = "negative" then
    (if negative_indicators.isEmpty then []
     else ["Contains " ++ toString negative_indicators.length ++ " negative indicators"]) ++
    (if intensifiers_found.isEmpty then []
     else ["Uses " ++ toString intensifiers_found.length ++ " intensifiers to strengthen criticism"]) ++
    (if positive_indicators.isEmpty then ["No significant positive language detected"] else [])
   else
    ["Balanced or factual language"] ++
    (if positive_indicators.isEmpty && negative_indicators.isEmpty then
      ["Lacks strong emotional indicators"] else [])) ++
  (if negations_found.isEmpty then []
   else ["Contains " ++ toString negations_found.length ++ " negations that may affect meaning"])

/-- The per-text result record of the enhanced analyzer (the dictionary
built at lines 125-153). -/
structure EnhancedResult where
  vader_compound : ℚ
  vader_positive : ℚ
  vader_negative : ℚ
  vader_neutral : ℚ
  textblob_polarity : ℚ
  textblob_subjectivity : ℚ
  sentiment : String
  confidence : String
  positive_words : List (String × String)
  negative_words : List (String × String)
  negations : List String
  intensifiers : List String
  sentence_breakdown : List SentenceEntry
  explanation : String
  reasoning : List String
deriving DecidableEq, Repr

/-- `_empty_result` (lines 331-349). -/
def empty_result : EnhancedResult where
  vader_compound := 0
  vader_positive := 0
  vader_negative := 0
  vader_neutral := 1
  textblob_polarity := 0
  textblob_subjectivity := 0
  sentiment := "neutral"
  confidence := "low"
  positive_words := []
  negative_words := []
  negations := []
  intensifiers := []
  sentence_breakdown := []
  explanation := "Empty or invalid text."
  reasoning := ["No content to analyze"]

/-- `EnhancedSentimentAnalyzer.analyze_text` (lines 65-153), with the
VADER and TextBlob models passed in as abstract scoring functions and
the input text as `Option String` (`None` embedded as `none`). -/
def analyze_text (vader : String → VaderScores) (blob : String → BlobScores)
    (text : Option String) : EnhancedResult :=
  match text with
  | none => empty_result
  | some s =>
    if s == "" || OSINT.strip s == "" then empty_result
    else
      let vader_scores := vader s
      let tb := blob s
      let words := tokenize s.toLower
      let sentences := split_sentences s
      let positive_indicators := find_sentiment_words words "positive"
      let negative_indicators := find_sentiment_words words "negative"
      let negations_found := find_negations words
      let intensifiers_found := find_intensifiers words
      let sentence_sentiments := analyze_sentences vader sentences
      let compound := vader_scores.compound
      let sentiment := vader_classify compound
      let confidence :=
        if 0.05 ≤ compound then
          (if 0.5 ≤ compound then "high"
           else if 0.25 ≤ compound then "moderate" else "low")
        else if compound ≤ -0.05 then
          (if compound ≤ -0.5 then "high"
           else if compound ≤ -0.25 then "moderate" else "low")
        else "moderate"
      { vader_compound := round3 compound
        vader_positive := round3 vader_scores.pos
        vader_negative := round3 vader_scores.neg
        vader_neutral := round3 vader_scores.neu
        textblob_polarity := round3 tb.polarity
        textblob_subjectivity := round3 tb.subjectivity
        sentiment := sentiment
        confidence := confidence
        positive_words := positive_indicators
        negative_words := negative_indicators
        negations := negations_found
        intensifiers := intensifiers_found
        sentence_breakdown := sentence_sentiments
        explanation := generate_explanation sentiment compound
          positive_indicators negative_indicators negations_found
          intensifiers_found sentence_sentiments
        reasoning := generate_reasoning sentiment positive_indicators
          negative_indicators negations_found intensifiers_found }

end OSINT.Enhanced

namespace OSINT.Simple

/-- `SentimentAnalyzer.POSITIVE_THRESHOLD`. -/
def POSITIVE_THRESHOLD : ℚ := 0.1

/-- `SentimentAnalyzer.NEGATIVE_THRESHOLD`. -/
def NEGATIVE_THRESHOLD : ℚ := -0.1

/-- The classification of `SentimentAnalyzer.analyze_text` (lines 46-52):
strictly greater than `0.1` is positive, strictly less than `-0.1` is
negative, everything else (the closed band, endpoints included) neutral.
The same threshold comparison is repeated verbatim in
`get_average_sentiment` (lines 227-233). -/
def classify (polarity : ℚ) : String :=
  if POSITIVE_THRESHOLD < polarity then "positive"
  else if polarity < NEGATIVE_THRESHOLD then "negative"
  else "neutral"

/-- The per-text result record of the simple analyzer. -/
structure SimpleResult where
  polarity : ℚ
  subjectivity : ℚ
  sentiment : String
  confidence : ℚ
deriving DecidableEq, Repr

/-- `SentimentAnalyzer.analyze_text` (lines 23-62): blank input
short-circuits to the fixed neutral record; otherwise TextBlob scores
are classified against the thresholds and confidence is the absolute
polarity.  (The `except` branch guards internal failures of the TextBlob
model, which is embedded here as a total abstract function.) -/
def analyze_text (blob : String → BlobScores) (text : Option String) :
    SimpleResult :=
  match text with
  | none => { polarity := 0, subjectivity := 0, sentiment := "neutral", confidence := 0 }
  | some s =>
    if s == "" || OSINT.strip s == "" then
      { polarity := 0, subjectivity := 0, sentiment := "neutral", confidence := 0 }
    else
      let polarity := (blob s).polarity
      let subjectivity := (blob s).subjectivity
      { polarity := round3 polarity
        subjectivity := round3 subjectivity
        sentiment := classify polarity
        confidence := round3 (abs polarity) }

end OSINT.Simple

namespace OSINT

/-- A value stored in a post dictionary: a plain string field or an
attached analysis record of either variant. -/
inductive Val where
  | vstr : String → Val
  | vsimple : Simple.SimpleResult → Val
  | venh : Enhanced.EnhancedResult → Val
deriving DecidableEq, Repr

/-- A post record: a Python dict embedded as an association list with
first-match lookup (`dict.get`). -/
def Post := List (String × Val)

instance : DecidableEq Post := by unfold Post; infer_instance

/-- Python `post_copy[k] = v` on a (copy of a) dict: replace the first
binding of `k` in place, or append a fresh binding. -/
def setKey : Post → String → Val → Post
  | [], k, v => [(k, v)]
  | (k0, v0) :: rest, k, v =>
    if k0 = k then (k, v) :: rest else (k0, v0) :: setKey rest k v

/-- `post.get('full_text') or post.get('text', '')`: the first field if
present and truthy (non-empty), otherwise the second with default `''`.
Text fields hold strings per the post contract; a non-string value in
them is outside the embedded behaviour. -/
def get_post_text (post : Post) : String :=
  let fallback :=
    match List.lookup "text" post with
    | some (Val.vstr s) => s
    | _ => ""
  match List.lookup "full_text" post with
  | some (Val.vstr s) => if s = "" then fallback else s
  | _ => fallback

/-- `post.get('sentiment_analysis', {}).get('sentiment')`: the sentiment
label of the attached analysis of either variant, `none` when absent. -/
def sent_of (post : Post) : Option String :=
  match List.lookup "sentiment_analysis" post with
  | some (Val.vsimple r) => some r.sentiment
  | some (Val.venh r) => some r.sentiment
  | _ => none

/-- `post.get('sentiment_analysis', {}).get('confidence', 0)`: the
numeric confidence key exists only on simple-variant results; the
default `0` is substituted otherwise. -/
def conf_of (post : Post) : ℚ :=
  match List.lookup "sentiment_analysis" post with
  | some (Val.vsimple r) => r.confidence
  | _ => 0

/-- `post.get('sentiment_analysis', {}).get('vader_compound', 0)`: the
compound key exists only on enhanced-variant results; the default `0`
is substituted otherwise. -/
def compound_of (post : Post) : ℚ :=
  match List.lookup "sentiment_analysis" post with
  | some (Val.venh r) => r.vader_compound
  | _ => 0

/-- `post.get('sentiment_analysis', {}).get('polarity', 0)`: present
only on simple-variant results, default `0` otherwise. -/
def polarity_of (post : Post) : ℚ :=
  match List.lookup "sentiment_analysis" post with
  | some (Val.vsimple r) => r.polarity
  | _ => 0

/-- `post.get('sentiment_analysis', {}).get('subjectivity', 0)`: present
only on simple-variant results, default `0` otherwise. -/
def subjectivity_of (post : Post) : ℚ :=
  match List.lookup "sentiment_analysis" post with
  | some (Val.vsimple r) => r.subjectivity
  | _ => 0

/-- `post.get('platform', 'unknown')` restricted to string fields. -/
def platform_of (post : Post) : String :=
  match List.lookup "platform" post with
  | some (Val.vstr s) => s
  | _ => "unknown"

/-- The corpus-level distribution record returned by both
`get_sentiment_distribution` implementations. -/
structure DistributionSummary where
  total : ℕ
  positive : ℕ
  negative : ℕ
  neutral : ℕ
  positive_pct : ℚ
  negative_pct : ℚ
  neutral_pct : ℚ
deriving DecidableEq, Repr

/-- The record returned by `get_average_sentiment`. -/
structure AverageSummary where
  avg_polarity : ℚ
  avg_subjectivity : ℚ
  overall_sentiment : String
deriving DecidableEq, Repr

end OSINT

namespace OSINT.Simple

/-- `SentimentAnalyzer.analyze_posts` (lines 73-98): per post, extract
the text, analyze it, and attach the result under `sentiment_analysis`
on a copy of the post. -/
def analyze_posts (blob : String → BlobScores) (posts : List Post) : List Post :=
  posts.map (fun post =>
    setKey post "sentiment_analysis"
      (Val.vsimple (analyze_text blob (some (get_post_text post)))))

/-- `SentimentAnalyzer.get_sentiment_distribution` (lines 100-137):
early return of the all-zero record for an empty batch, otherwise counts
by label (default `'neutral'`) with percentages `round(c/total*100, 2)`. -/
def get_sentiment_distribution (posts : List Post) : DistributionSummary :=
  if posts.isEmpty then
    { total := 0, positive := 0, negative := 0, neutral := 0,
      positive_pct := 0, negative_pct := 0, neutral_pct := 0 }
  else
    let sentiments := posts.map (fun post => (sent_of post).getD "neutral")
    let total := posts.length
    { total := total
      positive := sentiments.count "positive"
      negative := sentiments.count "negative"
      neutral := sentiments.count "neutral"
      positive_pct := round2 ((sentiments.count "positive" : ℚ) / total * 100)
      negative_pct := round2 ((sentiments.count "negative" : ℚ) / total * 100)
      neutral_pct := round2 ((sentiments.count "neutral" : ℚ) / total * 100) }

/-- Insert a post into the platform-grouping dict, preserving first-seen
platform order (`get_platform_sentiment`, lines 149-156). -/
def upsert (acc : List (String × List Post)) (k : String) (p : Post) :
    List (String × List Post) :=
  match acc with
  | [] => [(k, [p])]
  | (k0, l) :: rest =>
    if k0 = k then (k0, l ++ [p]) :: rest else (k0, l) :: upsert rest k p

/-- `SentimentAnalyzer.get_platform_sentiment` (lines 139-163). -/
def get_platform_sentiment (posts : List Post) :
    List (String × DistributionSummary) :=
  (posts.foldl (fun acc p => upsert acc (platform_of p) p) []).map
    (fun pl => (pl.1, get_sentiment_distribution pl.2))

/-- `SentimentAnalyzer.get_top_posts_by_sentiment` (lines 165-195):
filter by exact sentiment match, stable-sort descending by confidence
(Python's `sorted` with `reverse=True` is a stable sort; embedded as
insertion sort, which is stable), truncate to `limit`. -/
def get_top_posts_by_sentiment (posts : List Post) (sentiment : String)
    (limit : ℕ) : List Post :=
  let filtered_posts := posts.filter (fun post => sent_of post = some sentiment)
  let sorted_posts :=
    List.insertionSort (fun a b => conf_of b ≤ conf_of a) filtered_posts
  sorted_posts.take limit

/-- `SentimentAnalyzer.get_average_sentiment` (lines 197-239): zeroed
defaults for the empty batch; otherwise the mean over the whole batch of
the `polarity`/`subjectivity` fields (default `0` when a post carries no
analysis), rounded to three decimals, with the overall label obtained by
applying the threshold comparison to the unrounded mean. -/
def get_average_sentiment (posts : List Post) : AverageSummary :=
  if posts.isEmpty then
    { avg_polarity := 0, avg_subjectivity := 0, overall_sentiment := "neutral" }
  else
    let polarities := posts.map polarity_of
    let subjectivities := posts.map subjectivity_of
    let avg_polarity := polarities.sum / polarities.length
    let avg_subjectivity := subjectivities.sum / subjectivities.length
    { avg_polarity := round3 avg_polarity
      avg_subjectivity := round3 avg_subjectivity
      overall_sentiment := classify avg_polarity }

end OSINT.Simple

namespace OSINT.Enhanced

/-- `EnhancedSentimentAnalyzer.analyze_posts` (lines 351-363): same
copy-and-attach shape as the simple variant. -/
def analyze_posts (vader : String → VaderScores) (blob : String → BlobScores)
    (posts : List Post) : List Post :=
  posts.map (fun post =>
    setKey post "sentiment_analysis"
      (Val.venh (analyze_text vader blob (some (get_post_text post)))))

/-- `EnhancedSentimentAnalyzer.get_sentiment_distribution`
(lines 365-394), identical in behaviour to the simple variant's. -/
def get_sentiment_distribution (posts : List Post) : DistributionSummary :=
  if posts.isEmpty then
    { total := 0, positive := 0, negative := 0, neutral := 0,
      positive_pct := 0, negative_pct := 0, neutral_pct := 0 }
  else
    let sentiments := posts.map (fun post => (sent_of post).getD "neutral")
    let total := posts.length
    { total := total
      positive := sentiments.count "positive"
      negative := sentiments.count "negative"
      neutral := sentiments.count "neutral"
      positive_pct := round2 ((sentiments.count "positive" : ℚ) / total * 100)
      negative_pct := round2 ((sentiments.count "negative" : ℚ) / total * 100)
      neutral_pct := round2 ((sentiments.count "neutral" : ℚ) / total * 100) }

end OSINT.Enhanced

namespace OSINT.App

/-- `src/app.py` lines 291-296: top positive posts of the enhanced
pipeline, stable-sorted descending by raw compound score, first five. -/
def top_positive (analyzed_posts : List Post) : List Post :=
  (List.insertionSort (fun a b => compound_of b ≤ compound_of a)
    (analyzed_posts.filter (fun p => sent_of p = some "positive"))).take 5

/-- `src/app.py` lines 297-300: top negative posts, stable-sorted
ascending by raw compound score (most negative first), first five. -/
def top_negative (analyzed_posts : List Post) : List Post :=
  (List.insertionSort (fun a b => compound_of a ≤ compound_of b)
    (analyzed_posts.filter (fun p => sent_of p = some "negative"))).take 5

end OSINT.App

namespace OSINT.Claims

open OSINT

/-- Classification at inclusive `±0.1` boundaries, as the claim's words
("the same classification ... boundaries at +0.1 and -0.1") describe the
simple variant; written from the spec for comparison with the code's
`Simple.classify`. -/
def claimed_simple_classify (polarity : ℚ) : String :=
  if 0.1 ≤ polarity then "positive"
  else if polarity ≤ -0.1 then "negative"
  else "neutral"

/-- The arithmetic mean of the polarity fields over only those posts
carrying a sentiment analysis; written from the claim's words
("means ... over the available posts (those carrying a sentiment
analysis)") for comparison with the code's `Simple.get_average_sentiment`. -/
def claimed_mean_over_available (posts : List Post) : ℚ :=
  let ps := posts.filterMap (fun post =>
    match List.lookup "sentiment_analysis" post with
    | some (Val.vsimple r) => some r.polarity
    | _ => none)
  ps.sum / ps.length

/-- A constant TextBlob model returning polarity exactly `0.1`. -/
def blob_tenth : String → BlobScores := fun _ => { polarity := 0.1, subjectivity := 0 }

/-- A constant all-zero VADER model. -/
def vader_zero : String → VaderScores := fun _ => { compound := 0, pos := 0, neg := 0, neu := 1 }

/-- A constant all-zero TextBlob model. -/
def blob_zero : String → BlobScores := fun _ => { polarity := 0, subjectivity := 0 }

/-- A post carrying a simple-variant analysis with polarity `0.6`. -/
def post_with_analysis : Post :=
  [("sentiment_analysis", Val.vsimple
    { polarity := 3/5, subjectivity := 1/2, sentiment := "positive", confidence := 3/5 })]

/-- A post carrying no sentiment analysis at all. -/
def post_without_analysis : Post := [("platform", Val.vstr "reddit")]

end OSINT.Claims

namespace OSINT

/-! Helper lemmas shared by the claim theorems. -/

/-- Looking a key up after `setKey` yields the new value at that key and
is unchanged at every other key. -/
theorem lookup_setKey (p : Post) (k k' : String) (v : Val) :
    List.lookup k' (setKey p k v) =
      if k' = k then some v else List.lookup k' p := by
  induction p with
  | nil =>
    by_cases h : k' = k
    · simp [setKey, List.lookup, h]
    · have hb : (k' == k) = false := beq_eq_false_iff_ne.mpr h
      simp [setKey, List.lookup, h, hb]
  | cons hd tl ih =>
    obtain ⟨k0, v0⟩ := hd
    by_cases h0 : k0 = k
    · subst h0
      by_cases h : k' = k0
      · have hb : (k' == k0) = true := beq_iff_eq.mpr h
        simp [setKey, List.lookup, h, hb]
      · have hb : (k' == k0) = false := beq_eq_false_iff_ne.mpr h
        simp [setKey, List.lookup, h, hb]
    · by_cases h : k' = k0
      · subst h
        have hk : ¬ k' = k := h0
        have hb : (k' == k') = true := beq_iff_eq.mpr rfl
        simp [setKey, h0, List.lookup, hk, hb]
      · have hb : (k' == k0) = false := beq_eq_false_iff_ne.mpr h
        simp [setKey, h0, List.lookup, h, hb, ih]

/-- Inserting an element whose `p`-value is `false` does not change the
`p`-filter of the list. -/
theorem filter_orderedInsert_of_neg {α : Type} (r : α → α → Prop)
    [DecidableRel r] (p : α → Bool) (a : α) (hpa : p a = false) :
    ∀ l : List α, (List.orderedInsert r a l).filter p = l.filter p := by
  intro l
  induction l with
  | nil => simp [List.orderedInsert, hpa]
  | cons b l ih =>
    by_cases hr : r a b
    · simp [List.orderedInsert, hr, List.filter, hpa]
    · simp [List.orderedInsert, hr, List.filter]
      cases hpb : p b <;> simp [hpb, ih]

/-- Inserting an element whose `p`-value is `true` prepends it to the
`p`-filter, provided every element it is inserted behind fails `p`. -/
theorem filter_orderedInsert_of_pos {α : Type} (r : α → α → Prop)
    [DecidableRel r] (p : α → Bool) (a : α) (hpa : p a = true)
    (h : ∀ b, ¬ r a b → p b = false) :
    ∀ l : List α, (List.orderedInsert r a l).filter p = a :: l.filter p := by
  intro l
  induction l with
  | nil => simp [List.orderedInsert, hpa]
  | cons b l ih =>
    by_cases hr : r a b
    · simp [List.orderedInsert, hr, List.filter, hpa]
    · have hpb := h b hr
      simp [List.orderedInsert, hr, List.filter, hpb, ih]

/-- Stability of insertion sort, phrased through filters: if elements
equivalent under `p` can never strictly precede one another (`h`), the
`p`-filter of the sorted list is the `p`-filter of the input, i.e. their
relative order is untouched. -/
theorem filter_insertionSort {α : Type} (r : α → α → Prop)
    [DecidableRel r] (p : α → Bool)
    (h : ∀ a b, p a = true → ¬ r a b → p b = false) :
    ∀ l : List α, (List.insertionSort r l).filter p = l.filter p := by
  intro l
  induction l with
  | nil => rfl
  | cons a l ih =>
    cases hpa : p a
    · rw [List.insertionSort, filter_orderedInsert_of_neg r p a hpa, ih,
        List.filter_cons_of_neg]
      simp [hpa]
    · rw [List.insertionSort,
        filter_orderedInsert_of_pos r p a hpa (fun b hb => h a b hpa hb), ih,
        List.filter_cons_of_pos]
      simp [hpa]

/-- `insertionSort` sorts, stated with explicit totality and
transitivity of the relation. -/
theorem sorted_insertionSort_of {α : Type} (r : α → α → Prop)
    [DecidableRel r] (htot : ∀ a b, r a b ∨ r b a)
    (htr : ∀ a b c, r a b → r b c → r a c) (l : List α) :
    List.Sorted r (List.insertionSort r l) := by
  haveI : IsTotal α r := ⟨htot⟩
  haveI : IsTrans α r := ⟨fun a b c => htr a b c⟩
  exact List.sorted_insertionSort r l

/-- A prefix of a sorted list is sorted. -/
theorem sorted_take {α : Type} {r : α → α → Prop} {l : List α}
    (h : List.Sorted r l) (n : ℕ) : List.Sorted r (l.take n) :=
  List.Pairwise.sublist (List.take_sublist n l) h

/-- A `filterMap` whose function always succeeds on the list is a `map`. -/
theorem filterMap_eq_map_of {α β : Type} (g : α → Option β) (f : α → β)
    (l : List α) (h : ∀ x ∈ l, g x = some (f x)) :
    l.filterMap g = l.map f := by
  induction l with
  | nil => rfl
  | cons a l ih =>
    rw [List.filterMap_cons, h a (List.mem_cons_self a l), List.map_cons,
      ih (fun x hx => h x (List.mem_cons_of_mem a hx))]

end OSINT

namespace OSINT.Claims

open OSINT

/-- C2 counterexample: the word `"disappointing"` belongs to both the
strong-negative tier and the moderate-negative tier, so the four lexicon
categories are not pairwise disjoint as claimed. -/
theorem c2_tiers_counterexample :
    "disappointing" ∈ Enhanced.strong_negative ∧
    "disappointing" ∈ Enhanced.negative_words := by
  decide

/-- C2 (amended): every pair of the four lexicon categories is disjoint
except the two negative tiers, whose only common word is
`"disappointing"`. -/
theorem c2_tiers_amended :
    Enhanced.strong_positive.inter Enhanced.positive_words = []
  ∧ Enhanced.strong_positive.inter Enhanced.strong_negative = []
  ∧ Enhanced.strong_positive.inter Enhanced.negative_words = []
  ∧ Enhanced.positive_words.inter Enhanced.strong_negative = []
  ∧ Enhanced.positive_words.inter Enhanced.negative_words = []
  ∧ Enhanced.strong_negative.inter Enhanced.negative_words = ["disappointing"] := by
  refine ⟨?_, ?_, ?_, ?_, ?_, ?_⟩ <;> rfl

/-- C3 counterexample: the sentinel explanation of the enhanced empty
result carries a trailing period, so it is not the string
`"Empty or invalid text"` stated by the claim. -/
theorem c3_sentinel_counterexample :
    (Enhanced.analyze_text vader_zero blob_zero (some "")).explanation =
      "Empty or invalid text."
  ∧ "Empty or invalid text." ≠ "Empty or invalid text" := by
  exact ⟨rfl, by decide⟩

/-- C3 (amended): empty, whitespace-only and `None` input all
short-circuit both analyzer variants to the same fixed neutral records
with zeroed scores, independent of the scoring models (which are
therefore never consulted); the enhanced sentinel explanation is
`"Empty or invalid text."` with a trailing period. -/
theorem c3_blank_input (vader : String → VaderScores)
    (blob blob2 : String → BlobScores) (text : Option String)
    (h : is_blank text = true) :
    Enhanced.analyze_text vader blob text = Enhanced.empty_result
  ∧ Simple.analyze_text blob2 text =
      { polarity := 0, subjectivity := 0, sentiment := "neutral", confidence := 0 } := by
  cases text with
  | none => exact ⟨rfl, rfl⟩
  | some s =>
    have hg : (s == "" || OSINT.strip s == "") = true := h
    constructor
    · simp only [Enhanced.analyze_text, hg, if_true]
    · simp only [Simple.analyze_text, hg, if_true]

/-- C3 witness: blank inputs evaluated concretely through
`c3_blank_input` at a whitespace-only string. -/
theorem c3_blank_input_witness :
    is_blank (some "   ") = true
  ∧ (Enhanced.analyze_text vader_zero blob_zero (some "   ") = Enhanced.empty_result
     ∧ Simple.analyze_text blob_zero (some "   ") =
        { polarity := 0, subjectivity := 0, sentiment := "neutral", confidence := 0 }) :=
  ⟨by decide, c3_blank_input vader_zero blob_zero blob_zero (some "   ") (by decide)⟩

/-- C5 counterexample: with one positive and one neutral sentence the
code emits the majority clause ("1/2 are positive") although the
positive sentences are not a strict majority of all breakdown entries. -/
theorem c5_majority_counterexample :
    Enhanced.sentence_clause
      [⟨"Good", "positive", 1/2⟩, ⟨"Meh", "neutral", 0⟩] =
      ["Most sentences (1/2) are positive."]
  ∧ 2 * List.countP (fun e => e.sentiment == "positive")
        ([⟨"Good", "positive", 1/2⟩, ⟨"Meh", "neutral", 0⟩] :
          List Enhanced.SentenceEntry) ≤
      ([⟨"Good", "positive", 1/2⟩, ⟨"Meh", "neutral", 0⟩] :
          List Enhanced.SentenceEntry).length := by
  exact ⟨rfl, by decide⟩

/-- C5 (amended): the sentence clause is emitted exactly when more than
one sentence was analyzed and the positive and negative sentence counts
differ, naming whichever of the two is larger (neutral sentences are
ignored by the comparison); on a tie it is omitted. -/
theorem c5_sentence_clause (bs : List Enhanced.SentenceEntry) :
    (Enhanced.sentence_clause bs ≠ [] ↔
      1 < bs.length ∧
        bs.countP (fun e => e.sentiment == "positive") ≠
          bs.countP (fun e => e.sentiment == "negative"))
  ∧ Enhanced.sentence_clause bs =
      (if 1 < bs.length then
        (if bs.countP (fun e => e.sentiment == "negative") <
              bs.countP (fun e => e.sentiment == "positive") then
          ["Most sentences (" ++
            toString (bs.countP (fun e => e.sentiment == "positive")) ++ "/" ++
            toString bs.length ++ ") are positive."]
         else if bs.countP (fun e => e.sentiment == "positive") <
              bs.countP (fun e => e.sentiment == "negative") then
          ["Most sentences (" ++
            toString (bs.countP (fun e => e.sentiment == "negative")) ++ "/" ++
            toString bs.length ++ ") are negative."]
         else [])
       else []) := by
  constructor
  · simp only [Enhanced.sentence_clause]
    by_cases h1 : 1 < bs.length <;>
      by_cases h2 : bs.countP (fun e => e.sentiment == "negative") <
          bs.countP (fun e => e.sentiment == "positive") <;>
      by_cases h3 : bs.countP (fun e => e.sentiment == "positive") <
          bs.countP (fun e => e.sentiment == "negative") <;>
      simp [h1, h2, h3] <;> omega
  · rfl

/-- C7: every aggregate returns its documented zero/default record on
the empty batch, with no division performed: the distribution of both
variants is the all-zero record, the average is zeroed and neutral, the
platform breakdown is empty, and top-posts selection is empty for every
sentiment and limit. -/
theorem c7_empty_batch :
    Simple.get_sentiment_distribution [] =
      { total := 0, positive := 0, negative := 0, neutral := 0,
        positive_pct := 0, negative_pct := 0, neutral_pct := 0 }
  ∧ Enhanced.get_sentiment_distribution [] =
      { total := 0, positive := 0, negative := 0, neutral := 0,
        positive_pct := 0, negative_pct := 0, neutral_pct := 0 }
  ∧ Simple.get_average_sentiment [] =
      { avg_polarity := 0, avg_subjectivity := 0, overall_sentiment := "neutral" }
  ∧ Simple.get_platform_sentiment [] = []
  ∧ (∀ (s : String) (k : ℕ), Simple.get_top_posts_by_sentiment [] s k = []) := by
  refine ⟨rfl, rfl, rfl, rfl, fun s k => ?_⟩
  simp [Simple.get_top_posts_by_sentiment]

end OSINT.Claims

namespace OSINT.Claims

open OSINT

/-- C1 counterexample: at polarity exactly `0.1` the claimed boundary
classification (inclusive, as in the enhanced variant) says positive,
but the simple variant's code classifies it neutral (its comparisons are
strict). -/
theorem c1_simple_boundary_counterexample :
    claimed_simple_classify 0.1 = "positive"
  ∧ Simple.classify 0.1 = "neutral"
  ∧ (Simple.analyze_text blob_tenth (some "x")).sentiment = "neutral" := by
  refine ⟨?_, ?_, ?_⟩
  · norm_num [claimed_simple_classify]
  · norm_num [Simple.classify, Simple.POSITIVE_THRESHOLD, Simple.NEGATIVE_THRESHOLD]
  · have hg : (("x" : String) == "" || OSINT.strip "x" == "") = false := by decide
    simp only [Simple.analyze_text, hg, Bool.false_eq_true, if_false]
    norm_num [Simple.classify, Simple.POSITIVE_THRESHOLD, Simple.NEGATIVE_THRESHOLD,
      blob_tenth]

/-- C1 (amended): in both variants the produced sentiment label is a
pure function of the model score against fixed thresholds and never of
the indicator lists (the scoring models are arbitrary here).  Enhanced
variant: `compound >= 0.05` positive (so exactly `+0.05` is positive),
`<= -0.05` negative (so exactly `-0.05` is negative), strictly between
neutral.  Simple variant: strictly greater than `0.1` positive, strictly
less than `-0.1` negative, and the closed band including the endpoints
`±0.1` neutral. -/
theorem c1_threshold_classification (vader : String → VaderScores)
    (blob blob2 : String → BlobScores) (s : String) (c p : ℚ) :
    (Enhanced.analyze_text vader blob (some s)).sentiment =
      (if (s == "" || OSINT.strip s == "") then "neutral"
       else Enhanced.vader_classify (vader s).compound)
  ∧ (Enhanced.analyze_text vader blob none).sentiment = "neutral"
  ∧ Enhanced.vader_classify c =
      (if 0.05 ≤ c then "positive"
       else if c ≤ -0.05 then "negative" else "neutral")
  ∧ Enhanced.vader_classify 0.05 = "positive"
  ∧ Enhanced.vader_classify (-0.05) = "negative"
  ∧ Enhanced.vader_classify 0.049 = "neutral"
  ∧ Enhanced.vader_classify (-0.049) = "neutral"
  ∧ (Simple.analyze_text blob2 (some s)).sentiment =
      (if (s == "" || OSINT.strip s == "") then "neutral"
       else Simple.classify (blob2 s).polarity)
  ∧ Simple.classify p =
      (if 0.1 < p then "positive" else if p < -0.1 then "negative" else "neutral")
  ∧ Simple.classify 0.1 = "neutral"
  ∧ Simple.classify (-0.1) = "neutral" := by
  refine ⟨?_, rfl, rfl, ?_, ?_, ?_, ?_, ?_, rfl, ?_, ?_⟩
  · cases hg : (s == "" || OSINT.strip s == "") <;>
      simp [Enhanced.analyze_text, hg, Enhanced.empty_result]
  · norm_num [Enhanced.vader_classify]
  · norm_num [Enhanced.vader_classify]
  · norm_num [Enhanced.vader_classify]
  · norm_num [Enhanced.vader_classify]
  · cases hg : (s == "" || OSINT.strip s == "") <;>
      simp [Simple.analyze_text, hg]
  · norm_num [Simple.classify, Simple.POSITIVE_THRESHOLD, Simple.NEGATIVE_THRESHOLD]
  · norm_num [Simple.classify, Simple.POSITIVE_THRESHOLD, Simple.NEGATIVE_THRESHOLD]

/-- C8: the sentence breakdown is exactly the map over the first five
(non-empty by construction) sentences of the per-sentence entry whose
displayed text is the full sentence unless longer than 100 characters
(then its first 100 characters plus `"..."`), and whose sentiment and
score come from the full untruncated sentence; in particular it has at
most 5 entries and later sentences are ignored. -/
theorem c8_sentence_breakdown (vader : String → VaderScores) (text : String) :
    Enhanced.analyze_sentences vader (Enhanced.split_sentences text) =
      ((Enhanced.split_sentences text).take 5).map (fun sentence =>
        { text := if 100 < sentence.length then sentence.take 100 ++ "..."
                  else sentence
          sentiment := Enhanced.vader_classify (vader sentence).compound
          score := round3 (vader sentence).compound })
  ∧ (Enhanced.analyze_sentences vader (Enhanced.split_sentences text)).length ≤ 5 := by
  have hne : ∀ x ∈ (Enhanced.split_sentences text).take 5, x ≠ "" := by
    intro x hx
    have hx2 := List.take_subset 5 (Enhanced.split_sentences text) hx
    have hx3 := List.mem_filter.mp hx2
    exact of_decide_eq_true hx3.2
  have hmain : Enhanced.analyze_sentences vader (Enhanced.split_sentences text) =
      ((Enhanced.split_sentences text).take 5).map (fun sentence =>
        { text := if 100 < sentence.length then sentence.take 100 ++ "..."
                  else sentence
          sentiment := Enhanced.vader_classify (vader sentence).compound
          score := round3 (vader sentence).compound }) := by
    unfold Enhanced.analyze_sentences
    exact filterMap_eq_map_of _ _ _ (fun x hx => by rw [if_neg (hne x hx)])
  refine ⟨hmain, ?_⟩
  rw [hmain, List.length_map]
  exact le_trans (List.length_take_le 5 _) (le_refl 5)

/-- Index-and-key characterization of a batch that attaches a computed
value under `"sentiment_analysis"` on a copy of each post. -/
theorem lookup_map_setKey (f : Post → Val) (posts : List Post) (i : ℕ)
    (k : String) :
    List.lookup k
      ((posts.map (fun p => setKey p "sentiment_analysis" (f p))).getD i []) =
      (if i < posts.length then
        (if k = "sentiment_analysis" then some (f (posts.getD i []))
         else List.lookup k (posts.getD i []))
       else none) := by
  by_cases h : i < posts.length
  · have hget : (posts.map (fun p => setKey p "sentiment_analysis" (f p))).getD i [] =
        setKey (posts.getD i []) "sentiment_analysis" (f (posts.getD i [])) := by
      simp [List.getD_eq_getElem?_getD, List.getElem?_map, List.getElem?_eq_getElem h]
    rw [hget, lookup_setKey, if_pos h]
  · have h2 : posts.length ≤ i := le_of_not_lt h
    have hget : (posts.map (fun p => setKey p "sentiment_analysis" (f p))).getD i [] = [] := by
      apply List.getD_eq_default
      simpa using h2
    rw [hget, if_neg h]
    rfl

/-- C9: batch analysis of both variants returns one new record per post
(same length), and each output record agrees with the corresponding
input post on every key except `"sentiment_analysis"`, where it carries
the analysis of the post's extracted text; the input list itself is a
value and is untouched. -/
theorem c9_analyze_posts_frame (vader : String → VaderScores)
    (blob blob2 : String → BlobScores) (posts : List Post) (i : ℕ) (k : String) :
    (Simple.analyze_posts blob posts).length = posts.length
  ∧ (Enhanced.analyze_posts vader blob2 posts).length = posts.length
  ∧ List.lookup k ((Simple.analyze_posts blob posts).getD i []) =
      (if i < posts.length then
        (if k = "sentiment_analysis" then
          some (Val.vsimple (Simple.analyze_text blob
            (some (get_post_text (posts.getD i [])))))
         else List.lookup k (posts.getD i []))
       else none)
  ∧ List.lookup k ((Enhanced.analyze_posts vader blob2 posts).getD i []) =
      (if i < posts.length then
        (if k = "sentiment_analysis" then
          some (Val.venh (Enhanced.analyze_text vader blob2
            (some (get_post_text (posts.getD i [])))))
         else List.lookup k (posts.getD i []))
       else none) := by
  refine ⟨List.length_map posts _, List.length_map posts _, ?_, ?_⟩
  · exact lookup_map_setKey
      (fun p => Val.vsimple (Simple.analyze_text blob (some (get_post_text p))))
      posts i k
  · exact lookup_map_setKey
      (fun p => Val.venh (Enhanced.analyze_text vader blob2 (some (get_post_text p))))
      posts i k

/-- Counting lemma for the tiered indicator scan: a word of the strong
tier is emitted with strength `"strong"` once per occurrence and never
with strength `"moderate"`. -/
theorem count_strong_tier (strong moderate : List String) (w : String)
    (hw : w ∈ strong) (words : List String) :
    ((words.filterMap (fun word =>
        if word ∈ strong then some (word, "strong")
        else if word ∈ moderate then some (word, "moderate")
        else none)).count (w, "strong") = words.count w)
  ∧ ((w, "moderate") ∉ words.filterMap (fun word =>
        if word ∈ strong then some (word, "strong")
        else if word ∈ moderate then some (word, "moderate")
        else none)) := by
  induction words with
  | nil => simp
  | cons a l ih =>
    rw [List.filterMap_cons]
    by_cases ha : a ∈ strong
    · rw [if_pos ha]
      constructor
      · by_cases haw : a = w
        · subst haw
          simp [List.count_cons, ih.1]
        · simp [List.count_cons, haw, ih.1, Prod.ext_iff]
      · simp only [List.mem_cons, Prod.mk.injEq]
        rintro (⟨h1, h2⟩ | hmem)
        · exact absurd h2 (by decide)
        · exact ih.2 hmem
    · rw [if_neg ha]
      have haw : a ≠ w := fun hh => ha (hh ▸ hw)
      have hwa : ¬ a = w := haw
      by_cases hm : a ∈ moderate
      · rw [if_pos hm]
        constructor
        · simp [List.count_cons, haw, Ne.symm haw, ih.1, Prod.ext_iff]
        · simp only [List.mem_cons, Prod.mk.injEq]
          rintro (⟨h1, h2⟩ | hmem)
          · exact haw (h1.symm)
          · exact ih.2 hmem
      · rw [if_neg hm]
        refine ⟨?_, ih.2⟩
        rw [ih.1, List.count_cons]
        simp [haw]

/-- C10: in the enhanced indicator extraction the strong tier is tested
before the moderate tier, so a word belonging to a strong tier (such as
`"disappointing"`, which also sits in the moderate negative tier) is
reported exactly once per occurrence with strength `"strong"` and never
with strength `"moderate"`, for either polarity. -/
theorem c10_strong_tier_priority (words : List String) (w : String) :
    (w ∈ Enhanced.strong_negative →
      ((Enhanced.find_sentiment_words words "negative").count (w, "strong") =
          words.count w
       ∧ (w, "moderate") ∉ Enhanced.find_sentiment_words words "negative"))
  ∧ (w ∈ Enhanced.strong_positive →
      ((Enhanced.find_sentiment_words words "positive").count (w, "strong") =
          words.count w
       ∧ (w, "moderate") ∉ Enhanced.find_sentiment_words words "positive")) := by
  constructor
  · intro hw
    have h := count_strong_tier Enhanced.strong_negative Enhanced.negative_words w hw words
    simpa [Enhanced.find_sentiment_words,
      if_neg (by decide : ¬ ("negative" : String) = "positive")] using h
  · intro hw
    have h := count_strong_tier Enhanced.strong_positive Enhanced.positive_words w hw words
    simpa [Enhanced.find_sentiment_words,
      if_pos (by decide : ("positive" : String) = "positive")] using h

/-- C10 witness: `c10_strong_tier_priority` applied to the concrete
token stream `["disappointing", "bad", "disappointing"]`. -/
theorem c10_strong_tier_priority_witness :
    ("disappointing" ∈ Enhanced.strong_negative)
  ∧ (Enhanced.find_sentiment_words ["disappointing", "bad", "disappointing"]
      "negative").count ("disappointing", "strong") =
      List.count "disappointing" ["disappointing", "bad", "disappointing"]
  ∧ (("disappointing", "moderate") ∉
      Enhanced.find_sentiment_words ["disappointing", "bad", "disappointing"]
        "negative") := by
  have h := (c10_strong_tier_priority ["disappointing", "bad", "disappointing"]
    "disappointing").1 (by decide)
  exact ⟨by decide, h.1, h.2⟩

end OSINT.Claims

namespace OSINT

/-- `rhe` is the identity on integers. -/
theorem rhe_intCast (n : ℤ) : rhe (n : ℚ) = n := by
  simp [rhe, Int.floor_intCast]

/-- Evaluation rule for `round3` when the scaled argument is an integer. -/
theorem round3_eq_of (q : ℚ) (n : ℤ) (h : q * 1000 = (n : ℚ)) :
    round3 q = (n : ℚ) / 1000 := by
  rw [round3, roundTo, show ((10 : ℚ) ^ (3 : ℕ)) = 1000 by norm_num, h, rhe_intCast]

/-- The combined shape of a filter-sort-truncate selection: the output
is capped, sorted, drawn from the input, and the sort is stable in the
sense that any `p`-class of equivalent elements keeps its input order. -/
theorem take_sort_spec {α : Type} (r : α → α → Prop) [DecidableRel r]
    (htot : ∀ a b, r a b ∨ r b a) (htr : ∀ a b c, r a b → r b c → r a c)
    (p : α → Bool) (hstab : ∀ a b, p a = true → ¬ r a b → p b = false)
    (l : List α) (n : ℕ) :
    ((List.insertionSort r l).take n).length ≤ n
  ∧ List.Sorted r ((List.insertionSort r l).take n)
  ∧ (List.insertionSort r l).filter p = l.filter p
  ∧ (∀ x ∈ (List.insertionSort r l).take n, x ∈ l) := by
  refine ⟨List.length_take_le n _, ?_, ?_, ?_⟩
  · exact sorted_take (sorted_insertionSort_of r htot htr l) n
  · exact filter_insertionSort r p hstab l
  · intro x hx
    have hx2 := List.take_subset n _ hx
    exact (List.mem_insertionSort r).mp hx2

end OSINT

namespace OSINT.Claims

open OSINT

/-- C6 counterexample: with one analyzed post (polarity `0.6`) and one
post carrying no analysis, the code averages over both posts (the
missing analysis contributing `0`) and returns `0.3`, while the mean
over only the available posts would be `0.6`. -/
theorem c6_available_mean_counterexample :
    (Simple.get_average_sentiment
      [post_with_analysis, post_without_analysis]).avg_polarity = 3/10
  ∧ claimed_mean_over_available [post_with_analysis, post_without_analysis] = 3/5
  ∧ ((3 : ℚ)/10) ≠ 3/5 := by
  refine ⟨?_, ?_, by norm_num⟩
  · have hstep : (Simple.get_average_sentiment
        [post_with_analysis, post_without_analysis]).avg_polarity =
        round3 ((3/5 + (0 + 0)) / 2) := by
      simp [Simple.get_average_sentiment, post_with_analysis,
        post_without_analysis, polarity_of, List.lookup]
    rw [hstep, round3_eq_of _ 300 (by norm_num)]
    norm_num
  · simp [claimed_mean_over_available, post_with_analysis,
      post_without_analysis, List.lookup]

/-- C6 (amended): `get_average_sentiment` of the empty batch is the
zeroed neutral record (and nothing is divided); on a non-empty batch the
returned averages are the arithmetic means over the whole batch of the
per-post polarity and subjectivity (a post without an attached analysis
contributing `0` to both sums), rounded to three decimals, and the
overall label applies the `±0.1` threshold comparison to the unrounded
mean polarity. -/
theorem c6_average_sentiment (posts : List Post) :
    Simple.get_average_sentiment posts =
      (if posts.isEmpty then
        { avg_polarity := 0, avg_subjectivity := 0, overall_sentiment := "neutral" }
       else
        { avg_polarity := round3 ((posts.map polarity_of).sum / posts.length)
          avg_subjectivity := round3 ((posts.map subjectivity_of).sum / posts.length)
          overall_sentiment := Simple.classify ((posts.map polarity_of).sum / posts.length) })
  ∧ Simple.get_average_sentiment [] =
      { avg_polarity := 0, avg_subjectivity := 0, overall_sentiment := "neutral" } := by
  constructor
  · by_cases h : posts.isEmpty <;>
      simp [Simple.get_average_sentiment, h, List.length_map]
  · rfl

/-- C4: top-posts selection in both variants: the simple variant's
`get_top_posts_by_sentiment` returns at most `limit` posts, all with the
requested sentiment, sorted descending by confidence, and equals the
truncation of a stable sort of the sentiment-filtered input (each
confidence class keeps its original relative order), and is
deterministic; the enhanced pipeline's top-positive selection sorts
descending by raw compound score and the top-negative selection sorts
ascending (most negative first), both stable, capped at 5, and filtered
to their sentiment. -/
theorem c4_top_posts (posts : List Post) (sentiment : String) (limit : ℕ)
    (c : ℚ) :
    (Simple.get_top_posts_by_sentiment posts sentiment limit).length ≤ limit
  ∧ ((Simple.get_top_posts_by_sentiment posts sentiment limit).all
      (fun p => sent_of p == some sentiment)) = true
  ∧ List.Sorted (fun a b => conf_of b ≤ conf_of a)
      (Simple.get_top_posts_by_sentiment posts sentiment limit)
  ∧ Simple.get_top_posts_by_sentiment posts sentiment limit =
      (List.insertionSort (fun a b => conf_of b ≤ conf_of a)
        (posts.filter (fun p => sent_of p = some sentiment))).take limit
  ∧ (List.insertionSort (fun a b => conf_of b ≤ conf_of a)
        (posts.filter (fun p => sent_of p = some sentiment))).filter
        (fun p => conf_of p = c) =
      (posts.filter (fun p => sent_of p = some sentiment)).filter
        (fun p => conf_of p = c)
  ∧ Simple.get_top_posts_by_sentiment posts sentiment limit =
      Simple.get_top_posts_by_sentiment posts sentiment limit
  ∧ (App.top_positive posts).length ≤ 5
  ∧ ((App.top_positive posts).all (fun p => sent_of p == some "positive")) = true
  ∧ List.Sorted (fun a b => compound_of b ≤ compound_of a) (App.top_positive posts)
  ∧ (List.insertionSort (fun a b => compound_of b ≤ compound_of a)
        (posts.filter (fun p => sent_of p = some "positive"))).filter
        (fun p => compound_of p = c) =
      (posts.filter (fun p => sent_of p = some "positive")).filter
        (fun p => compound_of p = c)
  ∧ (App.top_negative posts).length ≤ 5
  ∧ ((App.top_negative posts).all (fun p => sent_of p == some "negative")) = true
  ∧ List.Sorted (fun a b => compound_of a ≤ compound_of b) (App.top_negative posts)
  ∧ (List.insertionSort (fun a b => compound_of a ≤ compound_of b)
        (posts.filter (fun p => sent_of p = some "negative"))).filter
        (fun p => compound_of p = c) =
      (posts.filter (fun p => sent_of p = some "negative")).filter
        (fun p => compound_of p = c) := by
  have hall : ∀ (L : List Post) (s : String),
      (∀ x ∈ L, x ∈ posts.filter (fun p => sent_of p = some s)) →
      (L.all (fun p => sent_of p == some s)) = true := by
    intro L s h
    rw [List.all_eq_true]
    intro x hx
    exact beq_iff_eq.mpr (of_decide_eq_true (List.mem_filter.mp (h x hx)).2)
  have hstab1 : ∀ a b : Post, decide (conf_of a = c) = true →
      ¬ (conf_of b ≤ conf_of a) → decide (conf_of b = c) = false := by
    intro a b ha hr
    have ha2 := of_decide_eq_true ha
    have hlt : conf_of a < conf_of b := not_le.mp hr
    exact decide_eq_false (fun hc => absurd (hc.trans ha2.symm) (ne_of_gt hlt))
  have hstab2 : ∀ a b : Post, decide (compound_of a = c) = true →
      ¬ (compound_of b ≤ compound_of a) → decide (compound_of b = c) = false := by
    intro a b ha hr
    have ha2 := of_decide_eq_true ha
    have hlt : compound_of a < compound_of b := not_le.mp hr
    exact decide_eq_false (fun hc => absurd (hc.trans ha2.symm) (ne_of_gt hlt))
  have hstab3 : ∀ a b : Post, decide (compound_of a = c) = true →
      ¬ (compound_of a ≤ compound_of b) → decide (compound_of b = c) = false := by
    intro a b ha hr
    have ha2 := of_decide_eq_true ha
    have hlt : compound_of b < compound_of a := not_le.mp hr
    exact decide_eq_false (fun hc => absurd (hc.trans ha2.symm) (ne_of_lt hlt))
  have h1 := take_sort_spec (fun a b => conf_of b ≤ conf_of a)
    (fun a b => le_total (conf_of b) (conf_of a))
    (fun a b d hab hbd => le_trans hbd hab)
    (fun p => decide (conf_of p = c)) hstab1
    (posts.filter (fun p => sent_of p = some sentiment)) limit
  have h2 := take_sort_spec (fun a b => compound_of b ≤ compound_of a)
    (fun a b => le_total (compound_of b) (compound_of a))
    (fun a b d hab hbd => le_trans hbd hab)
    (fun p => decide (compound_of p = c)) hstab2
    (posts.filter (fun p => sent_of p = some "positive")) 5
  have h3 := take_sort_spec (fun a b => compound_of a ≤ compound_of b)
    (fun a b => le_total (compound_of a) (compound_of b))
    (fun a b d hab hbd => le_trans hab hbd)
    (fun p => decide (compound_of p = c)) hstab3
    (posts.filter (fun p => sent_of p = some "negative")) 5
  exact ⟨h1.1, hall _ sentiment h1.2.2.2, h1.2.1, rfl, h1.2.2.1, rfl,
    h2.1, hall _ "positive" h2.2.2.2, h2.2.1, h2.2.2.1,
    h3.1, hall _ "negative" h3.2.2.2, h3.2.1, h3.2.2.1⟩

end OSINT.Claims
